import Mathlib

set_option maxRecDepth 20000

/-!
Shallow embedding of the card-generator pipeline
(`src/card_generator/image/profile.py`, `src/card_generator/genai/google.py`,
`src/card_generator/genai/tools/{card,profile,scene,style}.py`, `app/app.py`).

Machine model: a PIL image is an opaque byte buffer; the external generative
model is an oracle passed explicitly (a function from the request data to the
response the library would hand back); Python exceptions become `Except`.
-/

namespace CardGen

/-- An in-memory PIL image (opaque pixel/byte buffer). -/
structure PILImage where
  bytes : List Nat
deriving DecidableEq

/-- `Profile` from `image/profile.py`: image + name + free-text description.
(`card.py` and `app.py` import this class under the name `ProfilePicture`.) -/
structure Profile where
  image : PILImage
  name : String
  description : String
deriving DecidableEq

/-- `Profile.__str__`: the one-line textual rendering. -/
def Profile.toString (p : Profile) : String :=
  "Picture of " ++ p.name ++ ": " ++ p.description

/-- Alias used by `card.py` / `app.py` for the same class. -/
abbrev ProfilePicture := Profile

/-- Errors raised by the pipeline.  The three `no...` constructors are the
`RuntimeError`s raised in `google.py`; `validationError` is modelled from the
spec error taxonomy (section 7) so that claims about validation are statable:
no code path in `src/` raises it. -/
inductive GenError where
  | validationError
  | noTextResponse
  | noImageResponse
  | noImageData
deriving DecidableEq

/-- The part of a model text response that `generate_text_response` inspects:
`response.text` is `Optional[str]` in the client library. -/
structure TextResponse where
  text : Option String
deriving DecidableEq

/-- `google.generate_text_response` after the network call: Python checks
`if not response.text` (falsy = `None` or the empty string) and raises
`RuntimeError('No text response generated')`, else returns `response.text`. -/
def generate_text_response (response : TextResponse) : Except GenError String :=
  match response.text with
  | none => .error .noTextResponse
  | some t => if t = "" then .error .noTextResponse else .ok t

/-- An inline image carried by a response part; `image_bytes` is
`Optional[bytes]` in the client library. -/
structure GenaiImage where
  image_bytes : Option (List Nat)
deriving DecidableEq

/-- A response part: `inline_data` is present exactly for inline-image parts. -/
structure Part where
  inline_data : Option GenaiImage
deriving DecidableEq

/-- `part.as_image()`: the inline image when this part carries one. -/
def Part.as_image (p : Part) : Option GenaiImage :=
  p.inline_data

/-- The part list of a model image response (`response.parts`; an absent or
empty candidate list is modelled as `[]`, both are falsy in Python). -/
structure ImageResponse where
  parts : List Part
deriving DecidableEq

/-- The `images` list computed by `generate_image_response`:
`[part.as_image() for part in parts if part.inline_data is not None]`
followed by `list(filter(None, images))`. -/
def responseImages (response : ImageResponse) : List GenaiImage :=
  ((response.parts.filter (fun p => p.inline_data.isSome)).map Part.as_image).filterMap id

/-- Python falsiness of `Optional[bytes]`: `None` or empty. -/
def bytesFalsy : Option (List Nat) → Bool
  | none => true
  | some b => b.isEmpty

/-- `PIL.Image.open(BytesIO(b))`: decode bytes into an in-memory image. -/
def PIL_Image_open (b : List Nat) : PILImage :=
  ⟨b⟩

/-- `google.generate_image_response` after the network call:
raises if `parts` is falsy, computes `images`, raises
`'No image response generated'` if none, keeps only the first (a warning is
logged when several), raises `'No image data available in the response'` if the
first image has falsy `image_bytes`, else opens and returns it. -/
def generate_image_response (response : ImageResponse) : Except GenError PILImage :=
  if response.parts = [] then .error .noImageResponse
  else
    match responseImages response with
    | [] => .error .noImageResponse
    | img :: _ =>
      match img.image_bytes with
      | none => .error .noImageData
      | some b => if b = [] then .error .noImageData else .ok (PIL_Image_open b)

/-- Whether `generate_image_response` logs
`'Multiple images generated, returning only the first'`. -/
def generate_image_warns (response : ImageResponse) : Bool :=
  !response.parts.isEmpty && decide (1 < (responseImages response).length)

/-- The data `generate_image_response` sends to the model (prompt, attached
images, aspect ratio, grounding flag). -/
structure ImageGenRequest where
  prompt : String
  image_content : List PILImage
  aspect : String
  add_grounding : Bool
deriving DecidableEq

/-- A text-generation oracle: what the model answers for a prompt and a list
of attached images. -/
abbrev TextModel := String → List PILImage → TextResponse

/-- An image-generation oracle: what the model answers for a request. -/
abbrev ImageModel := ImageGenRequest → ImageResponse

/-- `description or 'N/A'` in `tools/profile.py` (falsy = `None` or `""`). -/
def descriptionOrNA : Option String → String
  | none => "N/A"
  | some d => if d = "" then "N/A" else d

/-- `tools/profile.py` `_PROMPT` up to the `description` placeholder. -/
def PROFILE_PROMPT_HEAD : String :=
  "\nYou are an expert at creating detailed written profiles for individuals that will guide AI image generation.\n\nTask: Analyze the provided image and optional description to create a comprehensive profile that captures:\n\n1. Physical Characteristics:\n   - Facial features (face shape, skin tone, distinctive features)\n   - Hair (color, style, length, texture)\n   - Eyes (color, shape, expression)\n   - Age appearance and build\n   - Attire and accessories\n\n2. Expression & Demeanor:\n   - Facial expression and emotional state\n   - Posture and body language\n   - Overall personality impression\n\n3. Key Identity Markers:\n   - Any unique or distinctive features that define this person\x27s appearance\n   - Elements critical for maintaining accurate representation\n\nOutput Requirements:\n- Write as a single, flowing paragraph\n- Be specific and descriptive (avoid vague terms like \"nice\" or \"pleasant\")\n- Focus on visual details that an image generator needs to recreate this person accurately\n- Prioritize features that maintain the person\x27s identity and likeness\n\n<UserProvidedDescription>\n"

/-- `tools/profile.py` `_PROMPT` after the `description` placeholder. -/
def PROFILE_PROMPT_TAIL : String :=
  "\n</UserProvidedDescription>\n\nDetailed profile:\n"

/-- The filled profile-enhancement template
(`_PROMPT.format(description=description or 'N/A')`). -/
def profile_prompt (description : Option String) : String :=
  PROFILE_PROMPT_HEAD ++ descriptionOrNA description ++ PROFILE_PROMPT_TAIL

/-- `tools/profile.py` `generate_profile_description`: fills the template and
returns the model's raw text for it, with the person's photo attached. -/
def generate_profile_description (text_model : TextModel) (image : PILImage)
    (description : Option String) : Except GenError String :=
  generate_text_response (text_model (profile_prompt description) [image])

/-- `tools/scene.py` `_PROMPT` up to the `instruction` placeholder. -/
def SCENE_PROMPT_HEAD : String :=
  "\nYou are an expert at expanding simple scene instructions into rich, detailed descriptions for AI image generation in greeting card creation.\n\nTask: Transform the user\x27s scene instruction into a comprehensive, vivid description that includes:\n\n1. Environment & Setting:\n   - Specific location and surroundings\n   - Time of day and season\n   - Weather conditions and lighting quality (natural/artificial, soft/dramatic)\n   - Indoor or outdoor context\n\n2. Atmosphere & Mood:\n   - Emotional tone (joyful, serene, festive, cozy, etc.)\n   - Energy level (calm, dynamic, celebratory)\n   - Overall feeling the scene should evoke\n\n3. Visual Elements:\n   - Key objects, decorations, or props\n   - Background and foreground elements\n   - Textures and materials\n   - Color palette and color harmony\n\n4. Composition & Framing:\n   - Spatial arrangement and layout\n   - Perspective and viewing angle\n   - Focal points and visual hierarchy\n   - How subjects interact with the environment\n\n5. Style Direction:\n   - Artistic style (photorealistic, illustrated, painterly, etc.)\n   - Visual treatment and aesthetic\n\nOutput Requirements:\n- Write as a single, detailed paragraph\n- Be specific and vivid with sensory details\n- Maintain the user\x27s original intent while adding richness\n- Provide clear, actionable guidance for image generation\n\n<UserProvidedSceneInstruction>\n"

/-- `tools/scene.py` `_PROMPT` after the `instruction` placeholder. -/
def SCENE_PROMPT_TAIL : String :=
  "\n</UserProvidedSceneInstruction>\n\nEnhanced scene description:\n"

/-- The filled scene-enhancement template. -/
def scene_prompt (instruction : String) : String :=
  SCENE_PROMPT_HEAD ++ instruction ++ SCENE_PROMPT_TAIL

/-- `tools/scene.py` `generate_scene_description`: fills the template and
returns the model's raw text for it (no image attached). -/
def generate_scene_description (text_model : TextModel) (instruction : String) :
    Except GenError String :=
  generate_text_response (text_model (scene_prompt instruction) [])

/-- `tools/style.py` `_PROMPT` up to the `instruction` placeholder. -/
def STYLE_PROMPT_HEAD : String :=
  "\nYou are an expert at defining artistic styles and visual aesthetics for AI image generation in greeting card creation.\n\nTask: Transform the user\x27s style instruction into a comprehensive, detailed style guide that includes:\n\n1. Artistic Style & Medium:\n   - Overall artistic approach (photorealistic, illustrated, painted, digital art, etc.)\n   - Specific art style or movement (impressionist, modern, vintage, cartoon, etc.)\n   - Medium appearance (oil painting, watercolor, digital render, pencil sketch, etc.)\n\n2. Color Treatment:\n   - Color palette (warm/cool, muted/vibrant, pastel/bold)\n   - Color harmony and relationships\n   - Saturation and brightness levels\n   - Any specific color schemes or dominant colors\n\n3. Lighting & Atmosphere:\n   - Lighting style (soft, dramatic, flat, cinematic, etc.)\n   - Light quality and direction\n   - Shadow treatment\n   - Overall mood created by lighting\n\n4. Visual Treatment:\n   - Level of detail (hyperdetailed, simplified, stylized)\n   - Texture and surface qualities\n   - Edge treatment (sharp, soft, painterly)\n   - Contrast and tonal range\n\n5. Technical Qualities:\n   - Image quality descriptors (crisp, dreamy, sharp, ethereal, etc.)\n   - Depth of field considerations\n   - Visual effects or filters\n   - Overall polish and finish\n\n6. Reference Style:\n   - Comparable artists, photographers, or illustrators (if applicable)\n   - Cultural or era-specific aesthetics\n   - Genre conventions (fantasy, sci-fi, traditional, contemporary)\n\nOutput Requirements:\n- Write as a single, detailed paragraph\n- Be specific with technical and artistic terminology\n- Provide clear visual direction that guides consistent image generation\n- Ensure the style complements greeting card aesthetics\n- Maintain the user\x27s original intent while adding technical precision\n\n<UserProvidedStyleInstruction>\n"

/-- `tools/style.py` `_PROMPT` after the `instruction` placeholder. -/
def STYLE_PROMPT_TAIL : String :=
  "\n</UserProvidedStyleInstruction>\n\nEnhanced style description:\n"

/-- The filled style-enhancement template. -/
def style_prompt (instruction : String) : String :=
  STYLE_PROMPT_HEAD ++ instruction ++ STYLE_PROMPT_TAIL

/-- `tools/style.py` `generate_style_description`: fills the template and
returns the model's raw text for it (no image attached). -/
def generate_style_description (text_model : TextModel) (instruction : String) :
    Except GenError String :=
  generate_text_response (text_model (style_prompt instruction) [])

/-- Python `sep.join(xs)`. -/
def pyJoin (sep : String) : List String → String
  | [] => ""
  | [s] => s
  | s :: rest => s ++ sep ++ pyJoin sep rest

/-- `tools/card.py` `_PROMPT` up to the `topic` placeholder. -/
def CARD_PROMPT_1 : String :=
  "\nYou are an expert at creating personalized greeting cards by generating family images based on provided pictures and descriptions.\n\nTask: Generate a "

/-- `tools/card.py` `_PROMPT` between `topic` and `family_members_descriptions`
(its trailing newline is kept explicit in `card_prompt`). -/
def CARD_PROMPT_2 : String :=
  " card image featuring the family members shown in the provided images.\n\n=== FAMILY MEMBERS ===\nThe following individuals must appear in the image (in order of provided pictures):"

/-- `tools/card.py` `_PROMPT` between `family_members_descriptions` and
`scene_instructions` (its leading newline is kept explicit in `card_prompt`). -/
def CARD_PROMPT_3 : String :=
  "\n=== CRITICAL REQUIREMENTS ===\n- PRESERVE IDENTITY: Maintain exact facial structure, distinctive features, and identity of each person from their input image\n- ACCURATE REPRESENTATION: Keep facial proportions, expressions, and key characteristics faithful to the original images\n- NATURAL INTEGRATION: Blend all family members naturally into the scene while preserving their individual likenesses\n\n=== SCENE DESCRIPTION ===\n"

/-- `tools/card.py` `_PROMPT` between `scene_instructions` and
`style_instructions`. -/
def CARD_PROMPT_4 : String :=
  "\n\n=== STYLE INSTRUCTIONS ===\n"

/-- `tools/card.py` `_PROMPT` between `style_instructions` and
`overlay_instructions`. -/
def CARD_PROMPT_5 : String :=
  "\n\n=== OVERLAY/ADDITIONAL ELEMENTS ===\n"

/-- `tools/card.py` `_PROMPT` after `overlay_instructions`. -/
def CARD_PROMPT_6 : String :=
  "\n\nGenerate a high-quality greeting card image that balances creative scene composition with accurate representation of the family members.\n"

/-- `_PROMPT.format(...)` in `tools/card.py`: the filled card template.  The
newline just before and just after the description block are written
explicitly so the block's position in the text is visible. -/
def card_prompt (topic fmd scene style overlay : String) : String :=
  CARD_PROMPT_1 ++ topic ++ CARD_PROMPT_2 ++ "\n" ++ fmd ++ "\n" ++ CARD_PROMPT_3 ++
    scene ++ CARD_PROMPT_4 ++ style ++ CARD_PROMPT_5 ++ overlay ++ CARD_PROMPT_6

/-- `if not overlay_instructions: overlay_instructions = 'N/A'`
(absent or empty gets the fallback). -/
def resolve_overlay : Option String → String
  | none => "N/A"
  | some s => if s = "" then "N/A" else s

/-- `if not style_instructions: style_instructions = 'Photorealistic style
with vibrant colors.'` (absent or empty gets the fallback). -/
def resolve_style : Option String → String
  | none => "Photorealistic style with vibrant colors."
  | some s => if s = "" then "Photorealistic style with vibrant colors." else s

/-- `f'- {str(pic)}'`: one bullet line of the description block. -/
def profile_line (pic : Profile) : String :=
  "- " ++ Profile.toString pic

/-- The `family_member_descriptions` variable of `generate_card`: either the
joined enhanced descriptions (`asyncio.gather` over one
`generate_profile_description` call per member, results joined in input
order), or the joined bullet lines. -/
def generate_card_descriptions (text_model : TextModel)
    (family_members : List ProfilePicture)
    (expand_profile_descriptions : Bool) : Except GenError String :=
  if expand_profile_descriptions then
    (family_members.mapM
      (fun pic => generate_profile_description text_model pic.image (some pic.description))).map
      (pyJoin "\n")
  else
    .ok (pyJoin "\n" (family_members.map profile_line))

/-- Observable behaviour of one `generate_card` call: its return value (or
exception), every image-generation request it sent to the model, and the state
of the caller's `Profile` objects when it returns. -/
structure CardRun where
  result : Except GenError PILImage
  image_requests : List ImageGenRequest
  family_members_after : List ProfilePicture

/-- `tools/card.py` `generate_card`: build the description block (optionally
via concurrent enhancement calls), substitute fallbacks for falsy overlay and
style instructions, fill the template, and send it with the members' images
(input order), aspect ratio `'4:3'` and grounding enabled.  The function never
assigns to any `Profile` field, so the members are returned unchanged. -/
def generate_card (text_model : TextModel) (image_model : ImageModel)
    (family_members : List ProfilePicture) (topic : String)
    (scene_instructions : String) (overlay_instructions : Option String)
    (style_instructions : Option String) (expand_profile_descriptions : Bool) :
    CardRun :=
  match generate_card_descriptions text_model family_members expand_profile_descriptions with
  | .error e =>
    { result := .error e, image_requests := [], family_members_after := family_members }
  | .ok family_member_descriptions =>
    let req : ImageGenRequest :=
      { prompt := card_prompt topic family_member_descriptions scene_instructions
          (resolve_style style_instructions) (resolve_overlay overlay_instructions)
        image_content := family_members.map (fun pic => pic.image)
        aspect := "4:3"
        add_grounding := true }
    { result := generate_image_response (image_model req)
      image_requests := [req]
      family_members_after := family_members }

/-- The ASCII whitespace characters removed by Python `str.strip()` (the
config strings fed to `normalize_text` are ASCII; other Unicode whitespace is
not modelled). -/
def isPyWhitespace (c : Char) : Bool :=
  c = ' ' || c = '\t' || c = '\n' || c = '\r' || c = '\x0b' || c = '\x0c'

/-- Python `line.strip()` on a character list. -/
def pyStripChars (l : List Char) : List Char :=
  ((l.dropWhile isPyWhitespace).reverse.dropWhile isPyWhitespace).reverse

/-- Python `text.split('\n')` on a character list. -/
def splitOnNewlineChars : List Char → List (List Char)
  | [] => [[]]
  | c :: cs =>
    match splitOnNewlineChars cs with
    | [] => [[]]
    | l :: ls => if c = '\n' then [] :: l :: ls else (c :: l) :: ls

/-- Python `sep.join(...)` on character lists. -/
def joinChars (sep : List Char) : List (List Char) → List Char
  | [] => []
  | [l] => l
  | l :: rest => l ++ sep ++ joinChars sep rest

/-- `app/app.py` `normalize_text` on the character list of the input: return
falsy text unchanged, else split on newlines, strip each line, keep the
non-empty ones, and join them with single spaces. -/
def normalize_text_data (text : List Char) : List Char :=
  if text = [] then text
  else
    joinChars [' ']
      ((splitOnNewlineChars text).filterMap
        (fun line => let s := pyStripChars line; if s = [] then none else some s))

/-- `app/app.py` `normalize_text`. -/
def normalize_text (text : String) : String :=
  ⟨normalize_text_data text.data⟩

/-- Boolean prefix test on character lists (used to decide substring facts on
concrete prompts). -/
def isPrefixCL : List Char → List Char → Bool
  | [], _ => true
  | _ :: _, [] => false
  | a :: as, b :: bs => a = b && isPrefixCL as bs

/-- Boolean substring test on character lists. -/
def containsSub (pat : List Char) : List Char → Bool
  | [] => isPrefixCL pat []
  | b :: bs => isPrefixCL pat (b :: bs) || containsSub pat bs

/-- Concrete test image. -/
def imgA : PILImage := ⟨[1]⟩

/-- Concrete test image. -/
def imgB : PILImage := ⟨[2]⟩

/-- The profile of the spec's concrete scenario. -/
def annProfile : Profile := ⟨imgA, "Ann", "smiling, red coat"⟩

/-- A second concrete profile. -/
def bobProfile : Profile := ⟨imgB, "Bob", "tall, blue scarf"⟩

/-- A text model that echoes the prompt it is given. -/
def text_model_echo : TextModel := fun prompt _ => ⟨some prompt⟩

/-- A text model that always answers `"X"`. -/
def text_model_X : TextModel := fun _ _ => ⟨some "X"⟩

/-- An image model whose response has no parts at all. -/
def image_model_empty : ImageModel := fun _ => ⟨[]⟩

/-- An image model that returns one valid inline image. -/
def image_model_one : ImageModel := fun _ => ⟨[⟨some ⟨some [7]⟩⟩]⟩

/-- Response with two inline image parts, the first with empty bytes. -/
def respTwoFirstEmpty : ImageResponse := ⟨[⟨some ⟨some []⟩⟩, ⟨some ⟨some [9]⟩⟩]⟩

/-- Response with two valid inline image parts. -/
def respTwoGood : ImageResponse := ⟨[⟨some ⟨some [7]⟩⟩, ⟨some ⟨some [8]⟩⟩]⟩

/-- Response with one inline image part carrying no bytes. -/
def respNoBytes : ImageResponse := ⟨[⟨some ⟨none⟩⟩]⟩

/-- The request issued by a concrete `generate_card` call (one profile,
style `"watercolor"`, no overlay, expansion off). -/
def c6_req : ImageGenRequest :=
  ⟨card_prompt "t" (pyJoin "\n" ([annProfile].map profile_line)) "s"
    (resolve_style (some "watercolor")) (resolve_overlay none), [imgA], "4:3", true⟩

/-! ## Helper lemmas -/

theorem data_append (s t : String) : (s ++ t).data = s.data ++ t.data :=
  rfl

theorem data_newline : ("\n" : String).data = ['\n'] :=
  rfl

theorem isPrefixCL_iff : ∀ (p l : List Char), isPrefixCL p l = true ↔ p <+: l
  | [], l => by simp [isPrefixCL]
  | a :: as, [] => by simp [isPrefixCL]
  | a :: as, b :: bs => by
    rw [List.cons_prefix_cons]
    unfold isPrefixCL
    rw [Bool.and_eq_true, decide_eq_true_iff]
    exact and_congr Iff.rfl (isPrefixCL_iff as bs)

theorem containsSub_iff : ∀ (p l : List Char), containsSub p l = true ↔ p <:+: l
  | p, [] => by simp [containsSub, isPrefixCL_iff]
  | p, b :: bs => by
    simp [containsSub, isPrefixCL_iff, containsSub_iff p bs, List.infix_cons_iff]

theorem mem_infix_pyJoin (sep : String) :
    ∀ (l : List String) (s : String), s ∈ l → s.data <:+: (pyJoin sep l).data
  | [], s, h => absurd h (List.not_mem_nil s)
  | [t], s, h => by
    rcases List.mem_singleton.mp h with rfl
    exact List.infix_refl _
  | t :: u :: rest, s, h => by
    rcases List.mem_cons.mp h with rfl | h'
    · have : s.data <+: (pyJoin sep (s :: u :: rest)).data := by
        show s.data <+: (s ++ sep ++ pyJoin sep (u :: rest)).data
        rw [data_append, data_append, List.append_assoc]
        exact List.prefix_append s.data (sep.data ++ (pyJoin sep (u :: rest)).data)
      exact this.isInfix
    · have ih := mem_infix_pyJoin sep (u :: rest) s h'
      have hsuf : (pyJoin sep (u :: rest)).data <:+ (pyJoin sep (t :: u :: rest)).data := by
        show (pyJoin sep (u :: rest)).data <:+ (t ++ sep ++ pyJoin sep (u :: rest)).data
        simpa [data_append, List.append_assoc] using
          List.suffix_append (t.data ++ sep.data) (pyJoin sep (u :: rest)).data
      exact ih.trans hsuf.isInfix

theorem toString_infix_profile_line (p : Profile) :
    (Profile.toString p).data <:+: (profile_line p).data := by
  show (Profile.toString p).data <:+: ("- " ++ Profile.toString p).data
  exact (List.suffix_append ("- " : String).data (Profile.toString p).data).isInfix

theorem block_infix_card_prompt (topic fmd scene style overlay : String) :
    ('\n' :: (fmd.data ++ ['\n'])) <:+: (card_prompt topic fmd scene style overlay).data := by
  refine ⟨(CARD_PROMPT_1 ++ topic ++ CARD_PROMPT_2).data,
    (CARD_PROMPT_3 ++ scene ++ CARD_PROMPT_4 ++ style ++ CARD_PROMPT_5 ++ overlay ++
      CARD_PROMPT_6).data, ?_⟩
  simp [card_prompt, data_append, data_newline, List.append_assoc]

theorem fmd_infix_card_prompt (topic fmd scene style overlay : String) :
    fmd.data <:+: (card_prompt topic fmd scene style overlay).data := by
  have h1 : fmd.data <:+: ('\n' :: (fmd.data ++ ['\n'])) :=
    ⟨['\n'], ['\n'], by simp⟩
  exact h1.trans (block_infix_card_prompt topic fmd scene style overlay)

theorem mapM_ok_of_forall₂ {α β : Type} (f : α → Except GenError β) :
    ∀ {l : List α} {ds : List β},
      List.Forall₂ (fun a b => f a = Except.ok b) l ds → l.mapM f = Except.ok ds := by
  intro l ds h
  induction h with
  | nil => rfl
  | cons hfa _ ih =>
    rw [List.mapM_cons, hfa, ih]
    rfl

theorem splitOnNewlineChars_ne_nil : ∀ (cs : List Char), splitOnNewlineChars cs ≠ []
  | [] => by simp [splitOnNewlineChars]
  | c :: cs => by
    cases h : splitOnNewlineChars cs with
    | nil => exact absurd h (splitOnNewlineChars_ne_nil cs)
    | cons l ls => by_cases hc : c = '\n' <;> simp [splitOnNewlineChars, h, hc]

theorem mem_splitOnNewlineChars_no_nl :
    ∀ (cs : List Char), ∀ l ∈ splitOnNewlineChars cs, '\n' ∉ l
  | [], l, hl => by
    simp [splitOnNewlineChars] at hl
    simp [hl]
  | c :: cs, l, hl => by
    have ih := mem_splitOnNewlineChars_no_nl cs
    rcases h : splitOnNewlineChars cs with _ | ⟨t, ts⟩
    · exact absurd h (splitOnNewlineChars_ne_nil cs)
    · rw [show splitOnNewlineChars (c :: cs) =
          if c = '\n' then [] :: t :: ts else (c :: t) :: ts from by
            simp [splitOnNewlineChars, h]] at hl
      by_cases hc : c = '\n'
      · rw [if_pos hc] at hl
        rcases List.mem_cons.mp hl with rfl | hl'
        · simp
        · exact ih l (h ▸ hl')
      · rw [if_neg hc] at hl
        rcases List.mem_cons.mp hl with rfl | hl'
        · intro hmem
          rcases List.mem_cons.mp hmem with h1 | h2
          · exact hc h1.symm
          · exact ih t (h ▸ List.mem_cons_self t ts) h2
        · exact ih l (h ▸ List.mem_cons_of_mem t hl')

theorem mem_of_mem_pyStripChars {x : Char} {l : List Char} (h : x ∈ pyStripChars l) : x ∈ l := by
  unfold pyStripChars at h
  rw [List.mem_reverse] at h
  have h2 : x ∈ (l.dropWhile isPyWhitespace).reverse :=
    (List.dropWhile_sublist isPyWhitespace).mem h
  rw [List.mem_reverse] at h2
  exact (List.dropWhile_sublist isPyWhitespace).mem h2

theorem mem_joinChars :
    ∀ (sep : List Char) (ls : List (List Char)) (x : Char),
      x ∈ joinChars sep ls → x ∈ sep ∨ ∃ l ∈ ls, x ∈ l
  | sep, [], x, h => absurd h (List.not_mem_nil x)
  | sep, [l], x, h => Or.inr ⟨l, List.mem_singleton.mpr rfl, h⟩
  | sep, l :: u :: rest, x, h => by
    have : x ∈ l ++ sep ++ joinChars sep (u :: rest) := h
    rcases List.mem_append.mp this with h1 | h2
    · rcases List.mem_append.mp h1 with h3 | h4
      · exact Or.inr ⟨l, List.mem_cons_self l _, h3⟩
      · exact Or.inl h4
    · rcases mem_joinChars sep (u :: rest) x h2 with h5 | ⟨t, ht, hx⟩
      · exact Or.inl h5
      · exact Or.inr ⟨t, List.mem_cons_of_mem l ht, hx⟩

theorem filterMap_strip_eq :
    ∀ (ls : List (List Char)),
      ls.filterMap (fun line => let s := pyStripChars line; if s = [] then none else some s) =
        (ls.map pyStripChars).filter (fun s => !s.isEmpty) := by
  intro ls
  induction ls with
  | nil => rfl
  | cons a t ih =>
    by_cases h : pyStripChars a = [] <;>
      simp [List.filterMap_cons, List.filter_cons, h, ih, List.isEmpty_iff]

theorem generate_image_response_cases (r : ImageResponse) :
    generate_image_response r = .error .noImageResponse ∨
    generate_image_response r = .error .noImageData ∨
    ∃ img, generate_image_response r = .ok img := by
  unfold generate_image_response
  split
  · exact Or.inl rfl
  · split
    · exact Or.inl rfl
    · split
      · exact Or.inr (Or.inl rfl)
      · split
        · exact Or.inr (Or.inl rfl)
        · exact Or.inr (Or.inr ⟨_, rfl⟩)

theorem generate_image_response_ne_validation (r : ImageResponse) :
    generate_image_response r ≠ .error .validationError := by
  rcases generate_image_response_cases r with h | h | ⟨img, h⟩ <;> simp [h]

theorem parts_ne_nil_of_responseImages {r : ImageResponse} {img : GenaiImage}
    {rest : List GenaiImage} (h : responseImages r = img :: rest) : r.parts ≠ [] := by
  intro hp
  rw [show responseImages r = [] from by simp [responseImages, hp]] at h
  exact List.cons_ne_nil img rest h.symm

/-! ## Claims -/

/-- Claim C1, counterexample: with an empty profiles list and empty
`scene_instructions`, `generate_card` does not fail fast with a validation
error before any model call: it issues one image-generation request, and the
only failure is the generation error coming from this model's (empty)
response. -/
theorem C1_counterexample :
    (generate_card text_model_X image_model_empty [] "Christmas" "" none none
        false).image_requests.length = 1 ∧
    (generate_card text_model_X image_model_empty [] "Christmas" "" none none
        false).result = .error .noImageResponse :=
  ⟨rfl, rfl⟩

/-- Claim C1 (amended): `generate_card` performs no input validation.  With an
empty profiles list (any settings), or with empty `scene_instructions` and
description expansion off, it still issues exactly one image-generation
request, and its result is never a validation error. -/
theorem C1_no_validation :
    (∀ (tm : TextModel) (im : ImageModel) (topic scene : String)
        (o s : Option String) (e : Bool),
        (generate_card tm im [] topic scene o s e).image_requests.length = 1 ∧
        (generate_card tm im [] topic scene o s e).result ≠ .error .validationError) ∧
    (∀ (tm : TextModel) (im : ImageModel) (fam : List Profile) (topic : String)
        (o s : Option String),
        (generate_card tm im fam topic "" o s false).image_requests.length = 1 ∧
        (generate_card tm im fam topic "" o s false).result ≠ .error .validationError) := by
  constructor
  · intro tm im topic scene o s e
    cases e
    · exact ⟨rfl, generate_image_response_ne_validation _⟩
    · exact ⟨rfl, generate_image_response_ne_validation _⟩
  · intro tm im fam topic o s
    exact ⟨rfl, generate_image_response_ne_validation _⟩

/-- Claim C2, counterexample: with `expand_profile_descriptions = true` and a
model that answers `"X"` to every enhancement prompt, the prompt that
`generate_card` sends for the non-empty profile list `[annProfile]` does not
contain the profile's name `"Ann"`. -/
theorem C2_counterexample :
    (generate_card text_model_X image_model_one [annProfile] "t" "s" none none
        true).image_requests =
      [⟨card_prompt "t" "X" "s" (resolve_style none) (resolve_overlay none),
        [imgA], "4:3", true⟩] ∧
    ¬ (("Ann" : String).data <:+:
        (card_prompt "t" "X" "s" (resolve_style none) (resolve_overlay none)).data) := by
  constructor
  · rfl
  · intro h
    exact absurd ((containsSub_iff _ _).mpr h) (by decide)

/-- Claim C2 (amended): for every non-empty profile list, the images attached
to the image-generation call are exactly the profiles' images in list order
(whatever the expansion flag); and when `expand_profile_descriptions` is off
(the default), the issued prompt embeds the bullet lines of the profiles in
input-list order and hence contains each profile's name and description. -/
theorem C2_prompt_order (tm : TextModel) (im : ImageModel) (fam : List Profile)
    (topic scene : String) (o s : Option String) (_hne : fam ≠ []) :
    (∀ (e : Bool) (req : ImageGenRequest),
        req ∈ (generate_card tm im fam topic scene o s e).image_requests →
        req.image_content = fam.map (fun p => p.image)) ∧
    (generate_card tm im fam topic scene o s false).image_requests =
      [⟨card_prompt topic (pyJoin "\n" (fam.map profile_line)) scene (resolve_style s)
          (resolve_overlay o), fam.map (fun p => p.image), "4:3", true⟩] ∧
    (∀ p ∈ fam, (Profile.toString p).data <:+:
        (card_prompt topic (pyJoin "\n" (fam.map profile_line)) scene (resolve_style s)
          (resolve_overlay o)).data) := by
  refine ⟨?_, rfl, ?_⟩
  · intro e req hreq
    revert hreq
    unfold generate_card
    cases hdesc : generate_card_descriptions tm fam e with
    | error err => intro h; exact absurd h (List.not_mem_nil req)
    | ok fmd =>
      intro h
      rcases List.mem_singleton.mp h with rfl
      rfl
  · intro p hp
    have h1 := toString_infix_profile_line p
    have h2 := mem_infix_pyJoin "\n" (fam.map profile_line) (profile_line p)
      (List.mem_map_of_mem profile_line hp)
    exact (h1.trans h2).trans (fmd_infix_card_prompt topic
      (pyJoin "\n" (fam.map profile_line)) scene (resolve_style s) (resolve_overlay o))

/-- Claim C2, witness: the amended theorem applied to the one-profile list. -/
theorem C2_witness :
    ([annProfile] ≠ ([] : List Profile)) ∧
    (Profile.toString annProfile).data <:+:
      (card_prompt "t" (pyJoin "\n" ([annProfile].map profile_line)) "s"
        (resolve_style none) (resolve_overlay none)).data := by
  refine ⟨by decide, ?_⟩
  exact (C2_prompt_order text_model_X image_model_one [annProfile] "t" "s" none none
    (by decide)).2.2 annProfile (List.mem_singleton.mpr rfl)

/-- Claim C3, counterexample: a response with two inline image parts whose
first image has empty bytes makes `generate_image_response` log the warning
and then fail with the no-image-data error instead of returning the first
image. -/
theorem C3_counterexample :
    (responseImages respTwoFirstEmpty).length = 2 ∧
    generate_image_warns respTwoFirstEmpty = true ∧
    generate_image_response respTwoFirstEmpty = .error .noImageData :=
  ⟨rfl, rfl, rfl⟩

/-- Claim C3 (amended): with zero inline image parts `generate_image_response`
fails with the generation error; with two or more it logs the warning and
considers only the first image: that image is returned when it carries bytes,
and otherwise the call fails with the no-image-data error. -/
theorem C3_generate_image (r : ImageResponse) :
    (responseImages r = [] → generate_image_response r = .error .noImageResponse) ∧
    (∀ (img : GenaiImage) (rest : List GenaiImage), responseImages r = img :: rest →
      (generate_image_warns r = true ↔ rest ≠ []) ∧
      generate_image_response r =
        (match img.image_bytes with
         | none => .error .noImageData
         | some b => if b = [] then .error .noImageData else .ok (PIL_Image_open b))) := by
  constructor
  · intro h
    unfold generate_image_response
    by_cases hp : r.parts = []
    · rw [if_pos hp]
    · rw [if_neg hp, h]
  · intro img rest h
    have hp : r.parts ≠ [] := parts_ne_nil_of_responseImages h
    constructor
    · unfold generate_image_warns
      rw [h]
      rcases rest with _ | ⟨x, xs⟩ <;> simp [List.isEmpty_iff, hp]
    · unfold generate_image_response
      rw [if_neg hp, h]

/-- Claim C3, witness: the amended theorem applied to a response with two
valid inline images: the warning fires and the first image is returned. -/
theorem C3_witness :
    generate_image_warns respTwoGood = true ∧
    generate_image_response respTwoGood = .ok (PIL_Image_open [7]) := by
  have h := (C3_generate_image respTwoGood).2 ⟨some [7]⟩ [⟨some [8]⟩] (by decide)
  refine ⟨h.1.mpr (by decide), ?_⟩
  rw [h.2]
  rfl

/-- Claim C4: a `Profile`'s rendering is exactly `Picture of name: description`;
and in the spec's concrete scenario (profile Ann, scene `"on a beach"`, style
`"watercolor"`, overlay `"Happy Birthday!"`) the request `generate_card`
issues carries one image and a prompt containing the line
`Picture of Ann: smiling, red coat`. -/
theorem C4_profile_rendering :
    (∀ (img : PILImage) (n d : String),
        Profile.toString ⟨img, n, d⟩ = "Picture of " ++ n ++ ": " ++ d) ∧
    (generate_card text_model_X image_model_one [annProfile] "birthday" "on a beach"
        (some "Happy Birthday!") (some "watercolor") false).image_requests =
      [⟨card_prompt "birthday" (pyJoin "\n" ([annProfile].map profile_line)) "on a beach"
          (resolve_style (some "watercolor")) (resolve_overlay (some "Happy Birthday!")),
        [imgA], "4:3", true⟩] ∧
    ("Picture of Ann: smiling, red coat" : String).data <:+:
      (card_prompt "birthday" (pyJoin "\n" ([annProfile].map profile_line)) "on a beach"
          (resolve_style (some "watercolor")) (resolve_overlay (some "Happy Birthday!"))).data := by
  refine ⟨fun img n d => rfl, rfl, ?_⟩
  have h0 : ("Picture of Ann: smiling, red coat" : String).data =
      (Profile.toString annProfile).data := rfl
  rw [h0]
  exact ((toString_infix_profile_line annProfile).trans
    (mem_infix_pyJoin "\n" ([annProfile].map profile_line) (profile_line annProfile)
      (List.mem_map_of_mem profile_line (List.mem_singleton.mpr rfl)))).trans
    (fmd_infix_card_prompt "birthday" (pyJoin "\n" ([annProfile].map profile_line))
      "on a beach" (resolve_style (some "watercolor"))
      (resolve_overlay (some "Happy Birthday!")))

/-- Claim C5: for every input containing a newline, `normalize_text` returns
text with no embedded newline character, equal to the stripped non-empty lines
joined by single spaces. -/
theorem C5_normalize_text (text : String) (h : '\n' ∈ text.data) :
    '\n' ∉ (normalize_text text).data ∧
    (normalize_text text).data =
      joinChars [' ']
        (((splitOnNewlineChars text.data).map pyStripChars).filter (fun s => !s.isEmpty)) := by
  have hne : text.data ≠ [] := List.ne_nil_of_mem h
  have hdata : (normalize_text text).data =
      joinChars [' '] ((splitOnNewlineChars text.data).filterMap
        (fun line => let s := pyStripChars line; if s = [] then none else some s)) := by
    show normalize_text_data text.data = _
    unfold normalize_text_data
    rw [if_neg hne]
  constructor
  · rw [hdata]
    intro hmem
    rcases mem_joinChars [' '] _ '\n' hmem with hsep | ⟨l, hl, hx⟩
    · exact absurd hsep (by decide)
    · rcases List.mem_filterMap.mp hl with ⟨line, hline, hf⟩
      by_cases hs : pyStripChars line = []
      · rw [show (let s := pyStripChars line; if s = [] then none else some s) = none from by
          simp [hs]] at hf
        exact absurd hf (by simp)
      · have hl' : l = pyStripChars line := by
          rw [show (let s := pyStripChars line;
              if s = [] then none else some s) = some (pyStripChars line) from by
            simp [hs]] at hf
          exact (Option.some.inj hf).symm
        exact mem_splitOnNewlineChars_no_nl text.data line hline
          (mem_of_mem_pyStripChars (hl' ▸ hx))
  · rw [hdata, filterMap_strip_eq]

/-- Claim C5, witness: the theorem applied to `"a\n\n b "`, which normalizes
to `"a b"`. -/
theorem C5_witness :
    ('\n' ∈ ("a\n\n b " : String).data) ∧
    normalize_text "a\n\n b " = "a b" ∧
    '\n' ∉ (normalize_text "a\n\n b ").data := by
  refine ⟨by decide, by decide, ?_⟩
  exact (C5_normalize_text "a\n\n b " (by decide)).1

/-- Claim C6: every request `generate_card` issues has its prompt built with
the resolved style and overlay slots, where resolution substitutes the fixed
fallback strings for an absent or empty value and keeps any non-empty value
verbatim. -/
theorem C6_fallbacks :
    (∀ (tm : TextModel) (im : ImageModel) (fam : List Profile) (topic scene : String)
        (o s : Option String) (e : Bool) (req : ImageGenRequest),
        req ∈ (generate_card tm im fam topic scene o s e).image_requests →
        ∃ fmd, req.prompt =
          card_prompt topic fmd scene (resolve_style s) (resolve_overlay o)) ∧
    resolve_overlay none = "N/A" ∧
    resolve_overlay (some "") = "N/A" ∧
    (∀ t : String, t ≠ "" → resolve_overlay (some t) = t) ∧
    resolve_style none = "Photorealistic style with vibrant colors." ∧
    resolve_style (some "") = "Photorealistic style with vibrant colors." ∧
    (∀ t : String, t ≠ "" → resolve_style (some t) = t) := by
  refine ⟨?_, rfl, rfl, ?_, rfl, rfl, ?_⟩
  · intro tm im fam topic scene o s e req hreq
    revert hreq
    unfold generate_card
    cases hdesc : generate_card_descriptions tm fam e with
    | error err => intro h; exact absurd h (List.not_mem_nil req)
    | ok fmd =>
      intro h
      rcases List.mem_singleton.mp h with rfl
      exact ⟨fmd, rfl⟩
  · intro t ht
    simp [resolve_overlay, ht]
  · intro t ht
    simp [resolve_style, ht]

/-- Claim C6, witness: the theorem applied to a concrete run (style
`"watercolor"`, overlay absent) and to concrete slot values. -/
theorem C6_witness :
    (∃ fmd, c6_req.prompt =
      card_prompt "t" fmd "s" (resolve_style (some "watercolor")) (resolve_overlay none)) ∧
    resolve_overlay none = "N/A" ∧
    resolve_overlay (some "Happy Birthday!") = "Happy Birthday!" ∧
    resolve_style none = "Photorealistic style with vibrant colors." ∧
    resolve_style (some "watercolor") = "watercolor" := by
  have h := C6_fallbacks
  refine ⟨?_, h.2.1, h.2.2.2.1 "Happy Birthday!" (by decide), h.2.2.2.2.1,
    h.2.2.2.2.2.2 "watercolor" (by decide)⟩
  refine h.1 text_model_X image_model_one [annProfile] "t" "s" none (some "watercolor")
    false c6_req ?_
  have he : (generate_card text_model_X image_model_one [annProfile] "t" "s" none
      (some "watercolor") false).image_requests = [c6_req] := rfl
  rw [he]
  exact List.mem_singleton.mpr rfl

/-- Claim C7: `generate_text_response` fails exactly when the response text is
absent or empty and otherwise returns that text unchanged; each enhancement
tool (scene, style, profile description) is exactly `generate_text_response`
applied to the model's answer for its filled template. -/
theorem C7_generate_text (r : TextResponse) :
    ((∃ err, generate_text_response r = .error err) ↔
      (r.text = none ∨ r.text = some "")) ∧
    (∀ t, r.text = some t → t ≠ "" → generate_text_response r = .ok t) ∧
    (∀ (tm : TextModel) (instruction : String),
        generate_scene_description tm instruction =
          generate_text_response (tm (scene_prompt instruction) [])) ∧
    (∀ (tm : TextModel) (instruction : String),
        generate_style_description tm instruction =
          generate_text_response (tm (style_prompt instruction) [])) ∧
    (∀ (tm : TextModel) (image : PILImage) (d : Option String),
        generate_profile_description tm image d =
          generate_text_response (tm (profile_prompt d) [image])) := by
  refine ⟨?_, ?_, fun tm i => rfl, fun tm i => rfl, fun tm img d => rfl⟩
  · unfold generate_text_response
    rcases r with ⟨_ | t⟩
    · simp
    · by_cases ht : t = "" <;> simp [ht]
  · intro t ht hne
    unfold generate_text_response
    rw [ht]
    show (if t = "" then Except.error GenError.noTextResponse else Except.ok t) = Except.ok t
    rw [if_neg hne]

/-- Claim C7, witness: the theorem applied to a non-empty response, to an
empty response, and to the scene tool with an echoing model. -/
theorem C7_witness :
    generate_text_response ⟨some "hello"⟩ = .ok "hello" ∧
    (∃ err, generate_text_response ⟨some ""⟩ = .error err) ∧
    generate_scene_description text_model_echo "a snowy hill" =
      .ok (scene_prompt "a snowy hill") := by
  refine ⟨(C7_generate_text ⟨some "hello"⟩).2.1 "hello" rfl (by decide),
    ((C7_generate_text ⟨some ""⟩).1).mpr (Or.inr rfl), ?_⟩
  rw [(C7_generate_text ⟨some "hello"⟩).2.2.1 text_model_echo "a snowy hill"]
  exact (C7_generate_text (text_model_echo (scene_prompt "a snowy hill") [])).2.1
    (scene_prompt "a snowy hill") rfl (by decide)

/-- Claim C8: when every concurrent enhancement call succeeds, the expanded
descriptions are joined in input order: the description block is the join of
the per-profile enhancement results, index by index, and the issued request
embeds that block (images still in input order). -/
theorem C8_expanded_order (tm : TextModel) (im : ImageModel) (fam : List Profile)
    (topic scene : String) (o s : Option String) (ds : List String)
    (h : List.Forall₂ (fun pic d =>
        generate_profile_description tm pic.image (some pic.description) = Except.ok d)
      fam ds) :
    generate_card_descriptions tm fam true = .ok (pyJoin "\n" ds) ∧
    (generate_card tm im fam topic scene o s true).image_requests =
      [⟨card_prompt topic (pyJoin "\n" ds) scene (resolve_style s) (resolve_overlay o),
        fam.map (fun p => p.image), "4:3", true⟩] := by
  have hd : generate_card_descriptions tm fam true = .ok (pyJoin "\n" ds) := by
    show (fam.mapM
        (fun pic => generate_profile_description tm pic.image (some pic.description))).map
      (pyJoin "\n") = .ok (pyJoin "\n" ds)
    rw [mapM_ok_of_forall₂ _ h]
    rfl
  refine ⟨hd, ?_⟩
  unfold generate_card
  rw [hd]

/-- Claim C8, witness: the theorem applied to two profiles and an echoing
model: the block is the join of the two enhancement results in order. -/
theorem C8_witness :
    generate_card_descriptions text_model_echo [annProfile, bobProfile] true =
      .ok (pyJoin "\n" [profile_prompt (some "smiling, red coat"),
        profile_prompt (some "tall, blue scarf")]) :=
  (C8_expanded_order text_model_echo image_model_one [annProfile, bobProfile] "t" "s"
    none none
    [profile_prompt (some "smiling, red coat"), profile_prompt (some "tall, blue scarf")]
    (List.Forall₂.cons rfl (List.Forall₂.cons rfl List.Forall₂.nil))).1

/-- Claim C9: `generate_card` leaves every profile unchanged: after the call
each profile's image, name and description equal their values before it. -/
theorem C9_profiles_unchanged (tm : TextModel) (im : ImageModel) (fam : List Profile)
    (topic scene : String) (o s : Option String) (e : Bool) :
    ((generate_card tm im fam topic scene o s e).family_members_after).map
        (fun p => p.image) = fam.map (fun p => p.image) ∧
    ((generate_card tm im fam topic scene o s e).family_members_after).map
        (fun p => p.name) = fam.map (fun p => p.name) ∧
    ((generate_card tm im fam topic scene o s e).family_members_after).map
        (fun p => p.description) = fam.map (fun p => p.description) := by
  have h : (generate_card tm im fam topic scene o s e).family_members_after = fam := by
    unfold generate_card
    cases hdesc : generate_card_descriptions tm fam e with
    | error err => rfl
    | ok fmd => rfl
  rw [h]
  exact ⟨rfl, rfl, rfl⟩

/-- Claim C10: when the first kept image of the response carries no bytes,
`generate_image_response` fails with the no-image-data error even though the
response did contain an inline image part. -/
theorem C10_first_image_no_bytes (r : ImageResponse) (img : GenaiImage)
    (rest : List GenaiImage) (h : responseImages r = img :: rest)
    (hb : bytesFalsy img.image_bytes = true) :
    generate_image_response r = .error .noImageData := by
  have hp : r.parts ≠ [] := parts_ne_nil_of_responseImages h
  unfold generate_image_response
  rw [if_neg hp, h]
  show (match img.image_bytes with
      | none => Except.error GenError.noImageData
      | some b => if b = [] then Except.error GenError.noImageData
          else Except.ok (PIL_Image_open b)) = Except.error GenError.noImageData
  cases hib : img.image_bytes with
  | none => rfl
  | some b =>
    rw [hib] at hb
    have hb' : b = [] := List.isEmpty_iff.mp hb
    show (if b = [] then Except.error GenError.noImageData
        else Except.ok (PIL_Image_open b)) = Except.error GenError.noImageData
    rw [if_pos hb']

/-- Claim C10, witness: the theorem applied to a response whose only inline
image part has no bytes. -/
theorem C10_witness :
    responseImages respNoBytes = [⟨none⟩] ∧
    bytesFalsy (⟨none⟩ : GenaiImage).image_bytes = true ∧
    generate_image_response respNoBytes = .error .noImageData :=
  ⟨rfl, rfl, C10_first_image_no_bytes respNoBytes ⟨none⟩ [] rfl rfl⟩

end CardGen
